import Mathlib

/-!
Verification of `push_resource.py`: a shallow embedding of the script's
data pipeline (load → validate → classify → sample → format → send) and
proofs about the claims of its specification.

Python strings are modelled as `List Char` (one entry per Unicode code
point, matching Python string indexing and slicing); `pystr` converts a
Lean string literal into this representation.
-/

namespace PushResource

/-- A Python string: its list of code points. -/
abbrev PyStr := List Char

/-- Embed a Lean string literal as a Python string. -/
def pystr (s : String) : PyStr :=
  s.data

/-- The characters removed by Python `str.strip()` with no argument. -/
def pyIsSpace (c : Char) : Bool :=
  c == ' ' || c == '\t' || c == '\n' || c == '\x0d' || c == '\x0b' || c == '\x0c'

/-- Python `str.strip()`: drop whitespace from both ends. -/
def pyStrip (s : PyStr) : PyStr :=
  ((s.dropWhile pyIsSpace).reverse.dropWhile pyIsSpace).reverse

/-- Does `s` start with `p` (Python `str.startswith` for one candidate)? -/
def pyStarts : PyStr → PyStr → Bool
  | _, [] => true
  | [], _ :: _ => false
  | c :: cs, p :: ps => c == p && pyStarts cs ps

/-! ## Rows and cleaning (lines 48-64 of the script) -/

/-- One raw table row: the cell texts of the three configured columns.
Under `dtype=str`, `keep_default_na=False`, `na_filter=False` every cell is
read as a Python `str`, with blank cells read as the empty string. -/
structure RawRow where
  type : PyStr
  name : PyStr
  link : PyStr
deriving DecidableEq

/-- A row after the cleaning of lines 54-56. -/
structure Row where
  type : PyStr
  name : PyStr
  link : PyStr
deriving DecidableEq

/-- Model of `Series.notna()` on this frame: because every cell is a `str`
(see `RawRow`), `notna` is true for every value. -/
def pdNotna (_s : PyStr) : Bool :=
  true

/-- `Series.str.startswith(("http://", "https://"))`: case-sensitive test of
the two accepted schemes. -/
def startswithHttp (s : PyStr) : Bool :=
  pyStarts s (pystr ("http://")) || pyStarts s (pystr ("https://"))

/-- Lines 54-56: strip the three columns; an empty stripped name is replaced
by the fixed placeholder. -/
def cleanRow (r : RawRow) : Row :=
  { type := pyStrip r.type
    name := if pyStrip r.name = [] then pystr ("无名称") else pyStrip r.name
    link := pyStrip r.link }

/-- Lines 59-63: the `filter_condition` applied to a cleaned row. -/
def rowValid (r : Row) : Bool :=
  pdNotna r.type && pdNotna r.link && startswithHttp r.link

/-- Lines 54-64: clean every row, then keep the rows passing the filter. -/
def cleanRows (raws : List RawRow) : List Row :=
  (raws.map cleanRow).filter rowValid

/-! ## Grouping (lines 67-71): `defaultdict(list)` with insertion order -/

/-- Append pair `p` to the bucket of key `t`, creating the bucket at the end
when the key is new — the behaviour of `defaultdict(list)` plus insertion
ordering of Python dicts. -/
def addToGroup : List (PyStr × List (PyStr × PyStr)) → PyStr → PyStr × PyStr →
    List (PyStr × List (PyStr × PyStr))
  | [], t, p => [(t, [p])]
  | (k, ps) :: rest, t, p =>
    if k = t then (k, ps ++ [p]) :: rest else (k, ps) :: addToGroup rest t p

/-- Lines 67-69: fold the cleaned rows into the ordered type map. -/
def classify (rows : List Row) : List (PyStr × List (PyStr × PyStr)) :=
  rows.foldl (fun acc r => addToGroup acc r.type (r.name, r.link)) []

/-- Lines 54-71: the `type_res_dict` produced from the raw table rows. -/
def type_res_dict (raws : List RawRow) : List (PyStr × List (PyStr × PyStr)) :=
  classify (cleanRows raws)

/-! ## Helper functions used to state and prove the grouping claims -/

/-- Read the bucket of key `t` in an association list of buckets (first
match; missing keys give the empty bucket, as `defaultdict` reads do). -/
def lookupG : List (PyStr × List (PyStr × PyStr)) → PyStr → List (PyStr × PyStr)
  | [], _ => []
  | (k, ps) :: rest, t => if k = t then ps else lookupG rest t

/-- Append `t` to `acc` unless it is already present. -/
def insNew (acc : List PyStr) (t : PyStr) : List PyStr :=
  if t ∈ acc then acc else acc ++ [t]

/-- The distinct values of `ts` in order of first occurrence. -/
def firstOccur (ts : List PyStr) : List PyStr :=
  ts.foldl insNew []

/-- The `(name, link)` pair a row contributes to its bucket. -/
def pairOf (r : Row) : PyStr × PyStr :=
  (r.name, r.link)

/-! ## `random.sample` (line 81) and the message formatter (lines 74-92) -/

/-- Select the element at position `i` of a list, returning it together
with the remaining elements; `none` when the index is out of range. -/
def pickAt {α : Type} : List α → Nat → Option (α × List α)
  | [], _ => none
  | x :: xs, 0 => some (x, xs)
  | x :: xs, n + 1 =>
    match pickAt xs n with
    | none => none
    | some (a, rest) => some (a, x :: rest)

/-- Selection loop of the `random.sample` model: at each of `k` steps draw
an index from the randomness oracle `r` (reduced modulo the remaining pool
size) and remove the chosen element from the pool. -/
def sampleGo {α : Type} (r : Nat → Nat) : Nat → Nat → List α → List α
  | _, 0, _ => []
  | step, k + 1, pool =>
    match pickAt pool (r step % pool.length) with
    | none => []
    | some (a, rest) => a :: sampleGo r (step + 1) k rest

/-- Model of `random.sample(l, k)`: `k` draws without replacement, the
randomness supplied by the oracle `r`. -/
def randomSample {α : Type} (r : Nat → Nat) (l : List α) (k : Nat) : List α :=
  sampleGo r 0 k l

/-- Lines 80-81: `sample_count = min(max_num, len(res_list))`, then
`random.sample(res_list, sample_count)`. -/
def sampleForMessage {α : Type} (r : Nat → Nat) (l : List α) (maxNum : Nat) : List α :=
  randomSample r l (min maxNum l.length)

/-- One rendered item line of line 84. -/
def resLine (ip : Nat × (PyStr × PyStr)) : PyStr :=
  pystr ("📚") ++ (Nat.repr (ip.1 + 1)).data ++ pystr (". ") ++ ip.2.1
    ++ pystr ("：\n") ++ ip.2.2

/-- Line 84: the newline-joined, numbered item lines. -/
def resStrOf (samples : List (PyStr × PyStr)) : PyStr :=
  List.intercalate (pystr ("\n")) (samples.enum.map resLine)

/-- The fixed informational footer of line 89. -/
def footerLine : PyStr :=
  pystr ("💡 需要其他资源可联系我，更多资料可在该网站搜索：https://dcn8qexvg13r.feishu.cn/wiki/OAS1wpySSiedCDkgnjycCza8nFf?table=tblgsMxc3clOlIc5&view=vewQ1AKJ0D")

/-- Lines 80-91: the assembled message text before the final truncation. -/
def assembledMessage (r : Nat → Nat) (res_type : PyStr)
    (res_list : List (PyStr × PyStr)) (max_num : Nat) : PyStr :=
  let sampleCount := min max_num res_list.length
  let randomRes := randomSample r res_list sampleCount
  let resStr := resStrOf randomRes
  List.intercalate (pystr ("\n"))
    [ res_type ++ pystr ("共") ++ (Nat.repr res_list.length).data ++ pystr ("条，随机抽取")
        ++ (Nat.repr sampleCount).data ++ pystr ("条）：\n") ++ resStr ++ pystr ("\n")
    , footerLine ]

/-- Lines 74-92: `format_single_type_message`. An empty list produces the
"no data" notice; otherwise the assembled message is cut to 4000
characters (`final_msg[:4000]`). -/
def format_single_type_message (r : Nat → Nat) (res_type : PyStr)
    (res_list : List (PyStr × PyStr)) (max_num : Nat) : PyStr :=
  if res_list = [] then pystr ("⚠️ 【") ++ res_type ++ pystr ("】无有效资源数据")
  else (assembledMessage r res_type res_list max_num).take 4000

/-! ## The notifier `send_to_wechat_bot` (lines 95-125) -/

/-- The parsed JSON body of the webhook's HTTP response: the two fields the
script reads, each possibly absent. -/
structure BotResponse where
  errcode : Option Int
  errmsg : Option PyStr
deriving DecidableEq

/-- How one `requests.post` + `response.json()` round trip can go. -/
inductive PostResult
  | raised (msg : PyStr)
  | badBody (msg : PyStr)
  | respond (resp : BotResponse)
deriving DecidableEq

/-- The errors the notifier can raise: the `ValueError` of line 98, a
transport/parse failure inside the `try` block, or the non-zero-`errcode`
failure of line 121 (carrying `errmsg` and `errcode` as the message does). -/
inductive SendError
  | configError (msg : PyStr)
  | transportError (msg : PyStr)
  | deliveryError (errmsg : Option PyStr) (errcode : Option Int)
deriving DecidableEq

/-- The fixed JSON envelope of lines 100-107. -/
structure Payload where
  msgtype : PyStr
  content : PyStr
  mentioned_list : List PyStr
  mentioned_mobile_list : List PyStr
deriving DecidableEq

/-- Lines 100-107: build the payload for a message text. -/
def mkPayload (content : PyStr) : Payload :=
  { msgtype := pystr ("text")
    content := content
    mentioned_list := []
    mentioned_mobile_list := [] }

/-- Lines 95-125: `send_to_wechat_bot`, parameterised by the network
oracle `post`. Returns the outcome together with the number of outbound
network calls made (`0` or `1`). -/
def send_to_wechat_bot (post : PyStr → Payload → PostResult)
    (webhook content : PyStr) : Except SendError Bool × Nat :=
  if webhook = [] ∨ content = [] then
    (Except.error (SendError.configError (pystr ("Webhook地址或推送内容不能为空"))), 0)
  else
    match post webhook (mkPayload content) with
    | PostResult.raised m => (Except.error (SendError.transportError m), 1)
    | PostResult.badBody m => (Except.error (SendError.transportError m), 1)
    | PostResult.respond resp =>
      if resp.errcode ≠ some 0 then
        (Except.error (SendError.deliveryError resp.errmsg resp.errcode), 1)
      else (Except.ok true, 1)

/-! ## The driver loop (lines 150-167) -/

/-- The per-type outcome recorded by the driver. -/
inductive Outcome
  | skipped
  | sent
  | failed (e : SendError)
deriving DecidableEq

/-- What one driver run did: the outcome of every type in order, and every
notifier invocation `(res_type, message)` in order. -/
structure DriverTrace where
  outcomes : List (PyStr × Outcome)
  calls : List (PyStr × PyStr)
deriving DecidableEq

/-- Lines 150-167: iterate the catalog in order. A type with fewer than 5
items is skipped (line 152); otherwise the message is formatted and sent,
and a send exception is caught at lines 160-163 without aborting the
loop. -/
def driverRun (post : PyStr → Payload → PostResult) (webhook : PyStr)
    (r : Nat → Nat) (max_num : Nat) :
    List (PyStr × List (PyStr × PyStr)) → DriverTrace
  | [] => { outcomes := [], calls := [] }
  | (res_type, res_list) :: rest =>
    if res_list.length < 5 then
      let t := driverRun post webhook r max_num rest
      { outcomes := (res_type, Outcome.skipped) :: t.outcomes, calls := t.calls }
    else
      let msg := format_single_type_message r res_type res_list max_num
      let res := send_to_wechat_bot post webhook msg
      let outcome :=
        match res.1 with
        | Except.ok _ => Outcome.sent
        | Except.error e => Outcome.failed e
      let t := driverRun post webhook r max_num rest
      { outcomes := (res_type, outcome) :: t.outcomes, calls := (res_type, msg) :: t.calls }

/-! ## The loader entry point (lines 25-71) and `__main__` (lines 128-173) -/

/-- A parsed spreadsheet: the header row and the body rows' cell texts. -/
structure Table where
  headers : List PyStr
  rows : List (List PyStr)
deriving DecidableEq

/-- The loader's failures: the missing file of line 29 or the
missing-columns error of line 46, which carries the list of missing
required columns and the (stripped) header row actually found. -/
inductive LoadError
  | fileNotFound
  | schemaError (missing : List PyStr) (found : List PyStr)
deriving DecidableEq

/-- Read the cell of column `col` from a row, given the stripped header
row (column extraction after the rename of lines 49-53). -/
def cellOf (headers : List PyStr) (cells : List PyStr) (col : PyStr) : PyStr :=
  cells.getD (headers.findIdx (fun h => h == col)) []

/-- Build the raw three-column row used by the cleaning steps. -/
def rawRowOf (headers : List PyStr) (colType colName colLink : PyStr)
    (cells : List PyStr) : RawRow :=
  { type := cellOf headers cells colType
    name := cellOf headers cells colName
    link := cellOf headers cells colLink }

/-- The stripped required column names of line 43. -/
def requiredCols (colType colName colLink : PyStr) : List PyStr :=
  [pyStrip colType, pyStrip colName, pyStrip colLink]

/-- The missing required columns of line 44, against the stripped header
row of line 42. -/
def missingCols (table : Table) (colType colName colLink : PyStr) : List PyStr :=
  (requiredCols colType colName colLink).filter
    (fun c => !((table.headers.map pyStrip).contains c))

/-- Lines 25-71: `read_excel_and_classify`. The input file is `none` when
the path does not exist; otherwise the parsed table is given. -/
def read_excel_and_classify (file : Option Table) (colType colName colLink : PyStr) :
    Except LoadError (List (PyStr × List (PyStr × PyStr))) :=
  match file with
  | none => Except.error LoadError.fileNotFound
  | some table =>
    if missingCols table colType colName colLink ≠ [] then
      Except.error (LoadError.schemaError (missingCols table colType colName colLink)
        (table.headers.map pyStrip))
    else
      Except.ok (type_res_dict
        (table.rows.map
          (rawRowOf (table.headers.map pyStrip) (pyStrip colType) (pyStrip colName)
            (pyStrip colLink))))

/-- Lines 128-173: the `__main__` block, given the configuration values.
Returns the process exit code and the driver trace: a missing webhook or a
loader error is caught at lines 171-173 and exits with code 1 before any
notifier call; a zero-type catalog exits 0 after no sends (lines
145-147). -/
def mainRun (post : PyStr → Payload → PostResult) (r : Nat → Nat)
    (webhook : Option PyStr) (file : Option Table)
    (colType colName colLink : PyStr) (max_num : Nat) : Nat × DriverTrace :=
  match webhook with
  | none => (1, { outcomes := [], calls := [] })
  | some w =>
    if w = [] then (1, { outcomes := [], calls := [] })
    else
      match read_excel_and_classify file colType colName colLink with
      | Except.error _ => (1, { outcomes := [], calls := [] })
      | Except.ok catalog =>
        if catalog.length = 0 then (0, { outcomes := [], calls := [] })
        else (0, driverRun post w r max_num catalog)

/-! ## Module initialization (lines 10-22) -/

/-- The process environment as the script reads it: each configuration
variable is present (with its text) or absent. -/
structure Env where
  wechatWebhook : Option PyStr
  excelFilePath : Option PyStr
  targetColType : Option PyStr
  targetColName : Option PyStr
  targetColLink : Option PyStr
  sendLinksPerType : Option PyStr
  sendInterval : Option PyStr
  randomSeed : Option PyStr
deriving DecidableEq

/-- A value in the module's global namespace. -/
inductive PyValue
  | str (s : PyStr)
  | int (n : Int)
  | noneV
deriving DecidableEq

/-- The exceptions module initialization can raise: the `NameError` of an
undefined global, or the `ValueError` of `int()` on a non-numeric text. -/
inductive PyError
  | nameError (n : PyStr)
  | valueError (msg : PyStr)
deriving DecidableEq

/-- Parse a run of decimal digits, most significant first. -/
def pyToNatAux : List Char → Nat → Option Nat
  | [], acc => some acc
  | c :: cs, acc =>
    if 48 ≤ c.toNat ∧ c.toNat ≤ 57 then pyToNatAux cs (acc * 10 + (c.toNat - 48))
    else none

/-- A non-empty all-digit text as a number. -/
def pyToNat (s : PyStr) : Option Nat :=
  if s = [] then none else pyToNatAux s 0

/-- Model of Python `int(str)`: optional surrounding whitespace, optional
sign, then at least one decimal digit; anything else raises `ValueError`. -/
def parsePyInt (s : PyStr) : Option Int :=
  match pyStrip s with
  | '-' :: rest => (pyToNat rest).map (fun n => -(n : Int))
  | '+' :: rest => (pyToNat rest).map (fun n => (n : Int))
  | t => (pyToNat t).map (fun n => (n : Int))

/-- `os.getenv(name)`: the value, or Python `None` when absent. -/
def pyGetenvOpt (v : Option PyStr) : PyValue :=
  match v with
  | some s => PyValue.str s
  | none => PyValue.noneV

/-- `os.getenv(name, default)` with a string default. -/
def pyGetenvD (v : Option PyStr) (d : PyStr) : PyValue :=
  match v with
  | some s => PyValue.str s
  | none => PyValue.str d

/-- `int(os.getenv(name, default))` with an integer default: returns the
parsed value or raises `ValueError` on non-numeric text (lines 16-17). -/
def intGetenv (v : Option PyStr) (d : Int) : Except PyError Int :=
  match v with
  | none => Except.ok d
  | some s =>
    match parsePyInt s with
    | some n => Except.ok n
    | none => Except.error (PyError.valueError s)

/-- Lines 11-17: the module-level assignments that execute. Line 18, the
only assignment to `RANDOM_SEED`, is commented out, so the namespace built
here has no `RANDOM_SEED` entry. -/
def moduleGlobals (env : Env) : Except PyError (List (PyStr × PyValue)) :=
  match intGetenv env.sendLinksPerType 5 with
  | Except.error e => Except.error e
  | Except.ok sendLinks =>
  match intGetenv env.sendInterval 2 with
  | Except.error e => Except.error e
  | Except.ok sendInterval =>
  Except.ok
    [ (pystr ("WECHAT_WEBHOOK"), pyGetenvOpt env.wechatWebhook)
    , (pystr ("EXCEL_FILE_PATH"), pyGetenvD env.excelFilePath (pystr ("共享无偿资料库.xlsx")))
    , (pystr ("TARGET_COL_TYPE"), pyGetenvD env.targetColType (pystr ("资源类型")))
    , (pystr ("TARGET_COL_NAME"), pyGetenvD env.targetColName (pystr ("资源名称")))
    , (pystr ("TARGET_COL_LINK"), pyGetenvD env.targetColLink (pystr ("资源链接")))
    , (pystr ("SEND_LINKS_PER_TYPE"), PyValue.int sendLinks)
    , (pystr ("SEND_INTERVAL"), PyValue.int sendInterval) ]

/-- Python name resolution in the module namespace: an absent name raises
`NameError`. -/
def lookupGlobal (g : List (PyStr × PyValue)) (n : PyStr) : Except PyError PyValue :=
  match g.find? (fun kv => kv.1 == n) with
  | some kv => Except.ok kv.2
  | none => Except.error (PyError.nameError n)

/-- Lines 10-22: module initialization. After the assignments, line 21
evaluates the name `RANDOM_SEED`, which the namespace does not contain. -/
def moduleInit (env : Env) : Except PyError (List (PyStr × PyValue)) :=
  match moduleGlobals env with
  | Except.error e => Except.error e
  | Except.ok g =>
  match lookupGlobal g (pystr ("RANDOM_SEED")) with
  | Except.error e => Except.error e
  | Except.ok _seed => Except.ok g

/-- The whole process: module initialization runs before the `__main__`
block; an exception there terminates the interpreter (exit code 1) before
any file is read or message sent. -/
def runProgram (env : Env) (post : PyStr → Payload → PostResult) (r : Nat → Nat)
    (file : Option Table) : Nat × DriverTrace :=
  match moduleInit env with
  | Except.error _ => (1, { outcomes := [], calls := [] })
  | Except.ok _ =>
    mainRun post r env.wechatWebhook file
      (env.targetColType.getD (pystr ("资源类型")))
      (env.targetColName.getD (pystr ("资源名称")))
      (env.targetColLink.getD (pystr ("资源链接")))
      (((env.sendLinksPerType.bind parsePyInt).getD 5).toNat)

/-- An environment whose `SEND_LINKS_PER_TYPE` is the non-numeric text
`abc`; every other variable is unset. -/
def envAbc : Env :=
  { wechatWebhook := none
    excelFilePath := none
    targetColType := none
    targetColName := none
    targetColLink := none
    sendLinksPerType := some (pystr ("abc"))
    sendInterval := none
    randomSeed := none }

/-- The empty environment: every configuration variable unset. -/
def envEmpty : Env :=
  { wechatWebhook := none
    excelFilePath := none
    targetColType := none
    targetColName := none
    targetColLink := none
    sendLinksPerType := none
    sendInterval := none
    randomSeed := none }

/-! ## Theorems for claim C1 -/

/-- C1 as the spec states it, as a predicate on a raw row: retained iff the
trimmed type is non-empty, the trimmed link is non-empty and the trimmed
link starts with an accepted scheme. -/
def specRetain (r : RawRow) : Bool :=
  decide (pyStrip r.type ≠ []) && decide (pyStrip r.link ≠ []) && startswithHttp (pyStrip r.link)

/-- C1 counterexample: a row with link `https://x` and empty type is
retained by the code, while the claim says it is dropped — `notna` never
fails on a string column, so emptiness of the type is not tested. -/
theorem c1_counterexample_empty_type_retained :
    rowValid (cleanRow { type := [], name := pystr ("n"), link := pystr ("https://x") }) = true
    ∧ specRetain { type := [], name := pystr ("n"), link := pystr ("https://x") } = false := by
  decide

/-- C1 (amended): a raw row is retained iff its trimmed link starts with
`http://` or `https://` (case-sensitively); emptiness of the type is not
tested, because with string cells `notna` is vacuously true. -/
theorem c1_rowValid_iff_link_scheme (r : RawRow) :
    rowValid (cleanRow r) = startswithHttp (pyStrip r.link) := by
  simp [rowValid, cleanRow, pdNotna]

/-! ## Lemmas about `addToGroup` and `classify` (claim C7) -/

theorem addToGroup_keys (acc : List (PyStr × List (PyStr × PyStr))) (t : PyStr)
    (p : PyStr × PyStr) :
    (addToGroup acc t p).map Prod.fst = insNew (acc.map Prod.fst) t := by
  induction acc with
  | nil => simp [addToGroup, insNew]
  | cons kv rest ih =>
    obtain ⟨k, ps⟩ := kv
    by_cases hk : k = t
    · subst hk
      simp [addToGroup, insNew]
    · simp only [addToGroup, if_neg hk, List.map_cons, ih, insNew]
      by_cases hmem : t ∈ rest.map Prod.fst
      · simp [hmem, Ne.symm hk]
      · simp [hmem, Ne.symm hk]

theorem lookupG_addToGroup (acc : List (PyStr × List (PyStr × PyStr))) (t : PyStr)
    (p : PyStr × PyStr) (u : PyStr) :
    lookupG (addToGroup acc t p) u
      = if u = t then lookupG acc t ++ [p] else lookupG acc u := by
  induction acc with
  | nil =>
    simp only [addToGroup, lookupG]
    by_cases hu : u = t
    · subst hu
      simp
    · simp [hu, Ne.symm hu]
  | cons kv rest ih =>
    obtain ⟨k, ps⟩ := kv
    simp only [addToGroup]
    by_cases hk : k = t
    · subst hk
      simp only [if_pos rfl, lookupG]
      by_cases hu : u = k
      · subst hu
        simp
      · simp [hu, Ne.symm hu]
    · simp only [if_neg hk, lookupG]
      by_cases hku : k = u
      · subst hku
        simp [lookupG, hk, Ne.symm hk]
      · simp [lookupG, hku, ih]

theorem mem_eq_lookupG (acc : List (PyStr × List (PyStr × PyStr))) (t : PyStr)
    (ls : List (PyStr × PyStr)) (hnd : (acc.map Prod.fst).Nodup)
    (h : (t, ls) ∈ acc) : ls = lookupG acc t := by
  induction acc with
  | nil => cases h
  | cons kv rest ih =>
    obtain ⟨k, ps⟩ := kv
    simp only [List.map_cons, List.nodup_cons] at hnd
    rcases List.mem_cons.mp h with hhead | htail
    · cases hhead
      simp [lookupG]
    · have hk : k ≠ t := by
        intro hkt
        subst hkt
        exact hnd.1 (List.mem_map.mpr ⟨(k, ls), htail, rfl⟩)
      simp only [lookupG, if_neg hk]
      exact ih hnd.2 htail

theorem addToGroup_join (acc : List (PyStr × List (PyStr × PyStr))) (t : PyStr)
    (p : PyStr × PyStr) :
    ((addToGroup acc t p).map Prod.snd).flatten.Perm ((acc.map Prod.snd).flatten ++ [p]) := by
  induction acc with
  | nil => simp [addToGroup]
  | cons kv rest ih =>
    obtain ⟨k, ps⟩ := kv
    by_cases hk : k = t
    · subst hk
      have hstep : addToGroup ((k, ps) :: rest) k p = (k, ps ++ [p]) :: rest := by
        simp [addToGroup]
      rw [hstep]
      simp only [List.map_cons, List.flatten_cons, List.append_assoc]
      exact List.Perm.append_left ps List.perm_append_comm
    · simp only [addToGroup, if_neg hk, List.map_cons, List.flatten_cons, List.append_assoc]
      exact List.Perm.append_left ps ih

theorem classify_snoc (rows : List Row) (r : Row) :
    classify (rows ++ [r]) = addToGroup (classify rows) r.type (pairOf r) := by
  simp [classify, List.foldl_append, pairOf]

theorem lookupG_classify (rows : List Row) (t : PyStr) :
    lookupG (classify rows) t
      = (rows.filter (fun r => r.type == t)).map pairOf := by
  induction rows using List.reverseRecOn with
  | nil => simp [classify, lookupG]
  | append_singleton xs x ih =>
    rw [classify_snoc, lookupG_addToGroup]
    by_cases ht : t = x.type
    · subst ht
      simp [List.filter_append, ih]
    · have : ¬ (x.type == t) = true := by
        simpa using fun h => ht (by simpa using h.symm)
      simp [List.filter_append, ih, ht, this]

theorem classify_keys (rows : List Row) :
    (classify rows).map Prod.fst = firstOccur (rows.map Row.type) := by
  induction rows using List.reverseRecOn with
  | nil => simp [classify, firstOccur]
  | append_singleton xs x ih =>
    rw [classify_snoc, addToGroup_keys, ih]
    simp [firstOccur, List.foldl_append]

theorem insNew_nodup (acc : List PyStr) (t : PyStr) (h : acc.Nodup) :
    (insNew acc t).Nodup := by
  unfold insNew
  by_cases ht : t ∈ acc
  · simp [ht, h]
  · simp [ht, List.nodup_append, h, List.disjoint_singleton]

theorem firstOccur_nodup (ts : List PyStr) : (firstOccur ts).Nodup := by
  suffices h : ∀ acc : List PyStr, acc.Nodup → (ts.foldl insNew acc).Nodup by
    exact h [] List.nodup_nil
  induction ts with
  | nil => intro acc hacc; simpa using hacc
  | cons t ts ih =>
    intro acc hacc
    exact ih (insNew acc t) (insNew_nodup acc t hacc)

theorem classify_join_perm (rows : List Row) :
    ((classify rows).map Prod.snd).flatten.Perm (rows.map pairOf) := by
  induction rows using List.reverseRecOn with
  | nil => simp [classify]
  | append_singleton xs x ih =>
    rw [classify_snoc]
    refine (addToGroup_join (classify xs) x.type (pairOf x)).trans ?_
    have h := ih.append_right [pairOf x]
    simpa using h

/-- C7: the grouped output is a partition of the valid rows. Keys occur in
first-encounter order of each distinct trimmed type and are pairwise
distinct; each bucket holds exactly the valid rows of its type, in table
row order; and the concatenation of all buckets is a permutation of (the
same multiset as) the full list of valid rows. -/
theorem c7_type_res_dict_partition (raws : List RawRow) :
    ((type_res_dict raws).map Prod.fst = firstOccur ((cleanRows raws).map Row.type))
    ∧ ((type_res_dict raws).map Prod.fst).Nodup
    ∧ (∀ t ls, (t, ls) ∈ type_res_dict raws →
        ls = ((cleanRows raws).filter (fun r => r.type == t)).map pairOf)
    ∧ ((type_res_dict raws).map Prod.snd).flatten.Perm ((cleanRows raws).map pairOf) := by
  have hnd : ((type_res_dict raws).map Prod.fst).Nodup := by
    unfold type_res_dict
    rw [classify_keys (cleanRows raws)]
    exact firstOccur_nodup _
  refine ⟨classify_keys (cleanRows raws), hnd, ?_, classify_join_perm (cleanRows raws)⟩
  intro t ls hmem
  rw [mem_eq_lookupG (type_res_dict raws) t ls hnd hmem]
  exact lookupG_classify (cleanRows raws) t

/-- C7 witness: the partition theorem applied to a concrete two-type,
three-row table, recovering the "Books" bucket from its membership. -/
theorem c7_witness :
    [(pystr ("a"), pystr ("https://a")), (pystr ("c"), pystr ("https://c"))]
      = ((cleanRows
          [ { type := pystr ("Books"), name := pystr ("a"), link := pystr ("https://a") }
          , { type := pystr ("Videos"), name := pystr ("b"), link := pystr ("https://b") }
          , { type := pystr ("Books"), name := pystr ("c"), link := pystr ("https://c") } ]).filter
            (fun r => r.type == pystr ("Books"))).map pairOf :=
  (c7_type_res_dict_partition
      [ { type := pystr ("Books"), name := pystr ("a"), link := pystr ("https://a") }
      , { type := pystr ("Videos"), name := pystr ("b"), link := pystr ("https://b") }
      , { type := pystr ("Books"), name := pystr ("c"), link := pystr ("https://c") } ]).2.2.1
    (pystr ("Books"))
    [(pystr ("a"), pystr ("https://a")), (pystr ("c"), pystr ("https://c"))]
    (by decide)

/-! ## Lemmas about the sampler (claim C5) -/

theorem pickAt_isSome_of_lt {α : Type} (l : List α) (i : Nat) (h : i < l.length) :
    ∃ a rest, pickAt l i = some (a, rest) := by
  induction l generalizing i with
  | nil => simp at h
  | cons x xs ih =>
    cases i with
    | zero => exact ⟨x, xs, rfl⟩
    | succ n =>
      obtain ⟨a, rest, hr⟩ := ih n (by simpa using Nat.lt_of_succ_lt_succ h)
      exact ⟨a, x :: rest, by simp [pickAt, hr]⟩

theorem pickAt_perm {α : Type} (l : List α) (i : Nat) (a : α) (rest : List α)
    (h : pickAt l i = some (a, rest)) : (a :: rest).Perm l := by
  induction l generalizing i a rest with
  | nil => simp [pickAt] at h
  | cons x xs ih =>
    cases i with
    | zero =>
      simp only [pickAt, Option.some.injEq, Prod.mk.injEq] at h
      obtain ⟨ha, hrest⟩ := h
      subst ha
      subst hrest
      exact List.Perm.refl _
    | succ n =>
      simp only [pickAt] at h
      cases hr : pickAt xs n with
      | none =>
        rw [hr] at h
        simp at h
      | some p =>
        obtain ⟨b, brest⟩ := p
        rw [hr] at h
        simp only [Option.some.injEq, Prod.mk.injEq] at h
        obtain ⟨hb, hrest⟩ := h
        subst hb
        subst hrest
        exact (List.Perm.swap x b brest).trans ((ih n b brest hr).cons x)

theorem sampleGo_length {α : Type} (r : Nat → Nat) (k : Nat) :
    ∀ (pool : List α) (step : Nat), k ≤ pool.length →
      (sampleGo r step k pool).length = k := by
  induction k with
  | zero =>
    intro pool step _
    simp [sampleGo]
  | succ n ih =>
    intro pool step h
    have hpos : 0 < pool.length := Nat.lt_of_lt_of_le (Nat.succ_pos n) h
    obtain ⟨a, rest, hr⟩ :=
      pickAt_isSome_of_lt pool (r step % pool.length) (Nat.mod_lt _ hpos)
    have hlen := (pickAt_perm pool _ a rest hr).length_eq
    simp only [List.length_cons] at hlen
    simp only [sampleGo, hr]
    have hrest : n ≤ rest.length := by omega
    simp [ih rest (step + 1) hrest]

theorem sampleGo_count {α : Type} [DecidableEq α] (r : Nat → Nat) (k : Nat) :
    ∀ (pool : List α) (step : Nat) (x : α),
      (sampleGo r step k pool).count x ≤ pool.count x := by
  induction k with
  | zero =>
    intro pool step x
    simp [sampleGo]
  | succ n ih =>
    intro pool step x
    cases hr : pickAt pool (r step % pool.length) with
    | none => simp [sampleGo, hr]
    | some p =>
      obtain ⟨a, rest⟩ := p
      have hc := (pickAt_perm pool _ a rest hr).count_eq x
      simp only [sampleGo, hr]
      rw [← hc]
      simp only [List.count_cons]
      exact Nat.add_le_add_right (ih rest (step + 1) x) _

theorem sampleGo_length_le {α : Type} (r : Nat → Nat) (k : Nat) :
    ∀ (pool : List α) (step : Nat), (sampleGo r step k pool).length ≤ pool.length := by
  induction k with
  | zero =>
    intro pool step
    simp [sampleGo]
  | succ n ih =>
    intro pool step
    cases hr : pickAt pool (r step % pool.length) with
    | none => simp [sampleGo, hr]
    | some p =>
      obtain ⟨a, rest⟩ := p
      have hlen := (pickAt_perm pool _ a rest hr).length_eq
      simp only [List.length_cons] at hlen
      simp only [sampleGo, hr, List.length_cons]
      have := ih rest (step + 1)
      omega

/-- C5: for a non-empty list and positive maximum N, the sampling step of
lines 80-81 draws exactly `min N (length)` items, draws without
replacement (each element's multiplicity in the draw never exceeds its
multiplicity in the list, so no position is taken twice), and never yields
more items than the list holds. -/
theorem c5_sample_no_replacement {α : Type} [DecidableEq α] (r : Nat → Nat)
    (l : List α) (N : Nat) (_hl : l ≠ []) (_hN : 0 < N) :
    (sampleForMessage r l N).length = min N l.length
    ∧ (∀ x, (sampleForMessage r l N).count x ≤ l.count x)
    ∧ (sampleForMessage r l N).length ≤ l.length := by
  refine ⟨?_, ?_, ?_⟩
  · exact sampleGo_length r (min N l.length) l 0 (Nat.min_le_right _ _)
  · intro x
    exact sampleGo_count r (min N l.length) l 0 x
  · exact sampleGo_length_le r (min N l.length) l 0

/-- C5 witness: the sampler theorem applied to a concrete three-element
list with maximum 2. -/
theorem c5_witness :
    (([3, 5, 5] : List Nat) ≠ []) ∧ (0 : Nat) < 2
    ∧ (sampleForMessage (fun _ => 0) ([3, 5, 5] : List Nat) 2).length = min 2 3 :=
  ⟨by decide, by decide,
    (c5_sample_no_replacement (fun _ => 0) ([3, 5, 5] : List Nat) 2 (by decide) (by decide)).1⟩

/-! ## Theorems for claim C6 (truncation) -/

/-- C6 counterexample: with an empty item list the formatter returns the
"no data" notice untruncated, so a 4001-character type label yields a
message strictly longer than the 4000-character cap. -/
theorem c6_counterexample_notice_exceeds_cap :
    4000 < (format_single_type_message (fun _ => 0) (List.replicate 4001 'a') [] 5).length := by
  have h : format_single_type_message (fun _ => 0) (List.replicate 4001 'a') [] 5
      = pystr ("⚠️ 【") ++ List.replicate 4001 'a' ++ pystr ("】无有效资源数据") := rfl
  rw [h]
  simp only [List.length_append, List.length_replicate]
  decide

/-- C6 (amended): whenever the item list is non-empty the formatter
returns the assembled text cut to its first 4000 characters — the result
never exceeds 4000 characters, equals the assembled text when that text is
within the cap, and is exactly the 4000-character head otherwise. For an
empty item list the "no data" notice is returned without truncation and
can exceed the cap (see the counterexample). -/
theorem c6_format_truncation (r : Nat → Nat) (res_type : PyStr)
    (res_list : List (PyStr × PyStr)) (max_num : Nat) (h : res_list ≠ []) :
    format_single_type_message r res_type res_list max_num
      = (assembledMessage r res_type res_list max_num).take 4000
    ∧ (format_single_type_message r res_type res_list max_num).length ≤ 4000
    ∧ ((assembledMessage r res_type res_list max_num).length ≤ 4000 →
        format_single_type_message r res_type res_list max_num
          = assembledMessage r res_type res_list max_num)
    ∧ (4000 < (assembledMessage r res_type res_list max_num).length →
        (format_single_type_message r res_type res_list max_num).length = 4000) := by
  have heq : format_single_type_message r res_type res_list max_num
      = (assembledMessage r res_type res_list max_num).take 4000 := by
    simp [format_single_type_message, h]
  refine ⟨heq, ?_, ?_, ?_⟩
  · rw [heq, List.length_take]
    exact Nat.min_le_left _ _
  · intro hle
    rw [heq, List.take_of_length_le hle]
  · intro hgt
    rw [heq, List.length_take]
    omega

/-- C6 witness: the truncation theorem applied to a one-item list. -/
theorem c6_witness :
    ([(pystr ("n"), pystr ("https://l"))] ≠ ([] : List (PyStr × PyStr)))
    ∧ (format_single_type_message (fun _ => 0) (pystr ("T"))
        [(pystr ("n"), pystr ("https://l"))] 5).length ≤ 4000 :=
  ⟨by decide,
    (c6_format_truncation (fun _ => 0) (pystr ("T"))
      [(pystr ("n"), pystr ("https://l"))] 5 (by decide)).2.1⟩

/-! ## Theorems for claims C3 and C10 (the notifier) -/

/-- C3 counterexample: a parsed response with no `errcode` field at all is
treated as a delivery failure (`result.get("errcode")` is `None` and
`None != 0`), while the claim says an absent field is not a delivery
error. -/
theorem c3_counterexample_absent_errcode_is_error :
    send_to_wechat_bot (fun _ _ => PostResult.respond { errcode := none, errmsg := none })
        (pystr ("http://w")) (pystr ("hi"))
      = (Except.error (SendError.deliveryError none none), 1) := by
  rfl

/-- C3 (amended): with non-empty webhook and content and a response that
parses, the notifier returns success iff the `errcode` field is present
and equal to zero, and raises the delivery error (carrying `errmsg` and
`errcode`) iff the field is absent or non-zero. -/
theorem c3_delivery_error_iff (post : PyStr → Payload → PostResult)
    (webhook content : PyStr) (resp : BotResponse)
    (hw : webhook ≠ []) (hc : content ≠ [])
    (hp : post webhook (mkPayload content) = PostResult.respond resp) :
    send_to_wechat_bot post webhook content
      = if resp.errcode = some 0 then (Except.ok true, 1)
        else (Except.error (SendError.deliveryError resp.errmsg resp.errcode), 1) := by
  have hcond : ¬ (webhook = [] ∨ content = []) := by
    rintro (h | h)
    · exact hw h
    · exact hc h
  unfold send_to_wechat_bot
  rw [if_neg hcond, hp]
  by_cases h0 : resp.errcode = some 0
  · simp [h0]
  · simp [h0]

/-- C3 witness: the amended theorem applied to a concrete zero-`errcode`
response, yielding success. -/
theorem c3_witness :
    pystr ("http://w") ≠ ([] : PyStr)
    ∧ send_to_wechat_bot (fun _ _ => PostResult.respond { errcode := some 0, errmsg := none })
        (pystr ("http://w")) (pystr ("hi"))
      = if ({ errcode := some 0, errmsg := none } : BotResponse).errcode = some 0
          then (Except.ok true, 1)
          else (Except.error (SendError.deliveryError none (some 0)), 1) :=
  ⟨by decide,
    c3_delivery_error_iff (fun _ _ => PostResult.respond { errcode := some 0, errmsg := none })
      (pystr ("http://w")) (pystr ("hi")) { errcode := some 0, errmsg := none }
      (by decide) (by decide) rfl⟩

/-- C10: with an empty webhook or an empty message the notifier raises the
configuration error of line 98 and makes zero outbound network calls. -/
theorem c10_config_error_before_delivery (post : PyStr → Payload → PostResult)
    (webhook content : PyStr) (h : webhook = [] ∨ content = []) :
    send_to_wechat_bot post webhook content
      = (Except.error (SendError.configError (pystr ("Webhook地址或推送内容不能为空"))), 0) := by
  unfold send_to_wechat_bot
  rw [if_pos h]

/-- C10 witness: the configuration-error theorem applied to an empty
webhook. -/
theorem c10_witness :
    (([] : PyStr) = [] ∨ pystr ("hi") = [])
    ∧ send_to_wechat_bot (fun _ _ => PostResult.raised []) [] (pystr ("hi"))
      = (Except.error (SendError.configError (pystr ("Webhook地址或推送内容不能为空"))), 0) :=
  ⟨Or.inl rfl,
    c10_config_error_before_delivery (fun _ _ => PostResult.raised []) [] (pystr ("hi"))
      (Or.inl rfl)⟩

/-! ## Theorems for claims C4 and C9 (the driver loop) -/

theorem driverRun_outcomes_keys (post : PyStr → Payload → PostResult) (webhook : PyStr)
    (r : Nat → Nat) (max_num : Nat) (catalog : List (PyStr × List (PyStr × PyStr))) :
    (driverRun post webhook r max_num catalog).outcomes.map Prod.fst
      = catalog.map Prod.fst := by
  induction catalog with
  | nil => rfl
  | cons e rest ih =>
    obtain ⟨t, l⟩ := e
    by_cases h : l.length < 5
    · simp [driverRun, h, ih]
    · simp [driverRun, h, ih]

theorem driverRun_calls_large (post : PyStr → Payload → PostResult) (webhook : PyStr)
    (r : Nat → Nat) (max_num : Nat) (catalog : List (PyStr × List (PyStr × PyStr))) :
    ∀ c ∈ (driverRun post webhook r max_num catalog).calls,
      ∃ l, (c.1, l) ∈ catalog ∧ ¬ l.length < 5 := by
  induction catalog with
  | nil =>
    intro c hc
    simp [driverRun] at hc
  | cons e rest ih =>
    obtain ⟨t, l⟩ := e
    intro c hc
    by_cases h : l.length < 5
    · simp only [driverRun, if_pos h] at hc
      obtain ⟨l', hl', h5⟩ := ih c hc
      exact ⟨l', List.mem_cons_of_mem _ hl', h5⟩
    · simp only [driverRun, if_neg h, List.mem_cons] at hc
      rcases hc with hc | hc
      · refine ⟨l, ?_, h⟩
        rw [hc]
        exact List.mem_cons_self _ _
      · obtain ⟨l', hl', h5⟩ := ih c hc
        exact ⟨l', List.mem_cons_of_mem _ hl', h5⟩

theorem nodup_keys_mem_inj {α β : Type} (xs : List (α × β))
    (hnd : (xs.map Prod.fst).Nodup) (t : α) (a b : β)
    (ha : (t, a) ∈ xs) (hb : (t, b) ∈ xs) : a = b := by
  induction xs with
  | nil => cases ha
  | cons x rest ih =>
    obtain ⟨k, v⟩ := x
    simp only [List.map_cons, List.nodup_cons] at hnd
    rcases List.mem_cons.mp ha with h1 | h1
    · rcases List.mem_cons.mp hb with h2 | h2
      · injection h1 with hk1 hv1
        injection h2 with hk2 hv2
        exact hv1.trans hv2.symm
      · injection h1 with hk1 hv1
        subst hk1
        exact absurd (List.mem_map.mpr ⟨(t, b), h2, rfl⟩) hnd.1
    · rcases List.mem_cons.mp hb with h2 | h2
      · injection h2 with hk2 hv2
        subst hk2
        exact absurd (List.mem_map.mpr ⟨(t, a), h1, rfl⟩) hnd.1
      · exact ih hnd.2 h1 h2

theorem driverRun_skipped_mem (post : PyStr → Payload → PostResult) (webhook : PyStr)
    (r : Nat → Nat) (max_num : Nat) (catalog : List (PyStr × List (PyStr × PyStr)))
    (t : PyStr) (l : List (PyStr × PyStr))
    (hmem : (t, l) ∈ catalog) (hlen : l.length < 5) :
    (t, Outcome.skipped) ∈ (driverRun post webhook r max_num catalog).outcomes := by
  induction catalog with
  | nil => cases hmem
  | cons e rest ih =>
    obtain ⟨t', l'⟩ := e
    rcases List.mem_cons.mp hmem with h1 | h1
    · injection h1 with ht hl
      subst ht
      subst hl
      simp [driverRun, hlen]
    · by_cases h' : l'.length < 5
      · simp only [driverRun, if_pos h']
        exact List.mem_cons_of_mem _ (ih h1)
      · simp only [driverRun, if_neg h']
        exact List.mem_cons_of_mem _ (ih h1)

/-- C4: a catalog entry with fewer than 5 items is recorded as skipped, no
draft is built and the notifier is never invoked for its type (the call
trace holds no entry for it, given the catalog's keys are distinct, as
`type_res_dict` always produces them), and the driver still processes
every type of the catalog in order. -/
theorem c4_driver_skips_small_groups (post : PyStr → Payload → PostResult)
    (webhook : PyStr) (r : Nat → Nat) (max_num : Nat)
    (catalog : List (PyStr × List (PyStr × PyStr))) (t : PyStr) (l : List (PyStr × PyStr))
    (hmem : (t, l) ∈ catalog) (hlen : l.length < 5)
    (hnd : (catalog.map Prod.fst).Nodup) :
    (t, Outcome.skipped) ∈ (driverRun post webhook r max_num catalog).outcomes
    ∧ (∀ c ∈ (driverRun post webhook r max_num catalog).calls, c.1 ≠ t)
    ∧ (driverRun post webhook r max_num catalog).outcomes.map Prod.fst
        = catalog.map Prod.fst := by
  refine ⟨driverRun_skipped_mem post webhook r max_num catalog t l hmem hlen, ?_,
    driverRun_outcomes_keys post webhook r max_num catalog⟩
  intro c hc hct
  obtain ⟨l', hl', h5⟩ := driverRun_calls_large post webhook r max_num catalog c hc
  rw [hct] at hl'
  exact h5 (nodup_keys_mem_inj catalog hnd t l' l hl' hmem ▸ hlen)

/-- C4 witness: the skipping theorem applied to a two-type catalog whose
first type holds a single item. -/
theorem c4_witness :
    ((pystr ("V"), [(pystr ("n"), pystr ("https://l"))])
        ∈ [ (pystr ("V"), [(pystr ("n"), pystr ("https://l"))])
          , (pystr ("B"), [ (pystr ("n1"), pystr ("https://1"))
                          , (pystr ("n2"), pystr ("https://2"))
                          , (pystr ("n3"), pystr ("https://3"))
                          , (pystr ("n4"), pystr ("https://4"))
                          , (pystr ("n5"), pystr ("https://5")) ]) ])
    ∧ (pystr ("V"), Outcome.skipped)
        ∈ (driverRun (fun _ _ => PostResult.respond { errcode := some 0, errmsg := none })
            (pystr ("http://w")) (fun _ => 0) 5
            [ (pystr ("V"), [(pystr ("n"), pystr ("https://l"))])
            , (pystr ("B"), [ (pystr ("n1"), pystr ("https://1"))
                            , (pystr ("n2"), pystr ("https://2"))
                            , (pystr ("n3"), pystr ("https://3"))
                            , (pystr ("n4"), pystr ("https://4"))
                            , (pystr ("n5"), pystr ("https://5")) ]) ]).outcomes :=
  ⟨by decide,
    (c4_driver_skips_small_groups
      (fun _ _ => PostResult.respond { errcode := some 0, errmsg := none })
      (pystr ("http://w")) (fun _ => 0) 5
      [ (pystr ("V"), [(pystr ("n"), pystr ("https://l"))])
      , (pystr ("B"), [ (pystr ("n1"), pystr ("https://1"))
                      , (pystr ("n2"), pystr ("https://2"))
                      , (pystr ("n3"), pystr ("https://3"))
                      , (pystr ("n4"), pystr ("https://4"))
                      , (pystr ("n5"), pystr ("https://5")) ]) ]
      (pystr ("V")) [(pystr ("n"), pystr ("https://l"))]
      (by decide) (by decide) (by decide)).1⟩

theorem driverRun_failed_mem (post : PyStr → Payload → PostResult) (webhook : PyStr)
    (r : Nat → Nat) (max_num : Nat) (catalog : List (PyStr × List (PyStr × PyStr)))
    (t : PyStr) (l : List (PyStr × PyStr)) (e : SendError)
    (hmem : (t, l) ∈ catalog) (hlen : ¬ l.length < 5)
    (he : (send_to_wechat_bot post webhook
            (format_single_type_message r t l max_num)).1 = Except.error e) :
    (t, Outcome.failed e) ∈ (driverRun post webhook r max_num catalog).outcomes := by
  induction catalog with
  | nil => cases hmem
  | cons entry rest ih =>
    obtain ⟨t', l'⟩ := entry
    rcases List.mem_cons.mp hmem with h1 | h1
    · injection h1 with ht hl
      subst ht
      subst hl
      simp [driverRun, hlen, he]
    · by_cases h' : l'.length < 5
      · simp only [driverRun, if_pos h']
        exact List.mem_cons_of_mem _ (ih h1)
      · simp only [driverRun, if_neg h']
        exact List.mem_cons_of_mem _ (ih h1)

/-- C9: a delivery failure for one type is caught at lines 160-163: the
type is recorded as failed and the driver still processes every type of
the catalog, in catalog order, regardless of the notifier's outcomes. -/
theorem c9_driver_continues_after_failure (post : PyStr → Payload → PostResult)
    (webhook : PyStr) (r : Nat → Nat) (max_num : Nat)
    (catalog : List (PyStr × List (PyStr × PyStr))) (t : PyStr)
    (l : List (PyStr × PyStr)) (e : SendError)
    (hmem : (t, l) ∈ catalog) (hlen : ¬ l.length < 5)
    (he : (send_to_wechat_bot post webhook
            (format_single_type_message r t l max_num)).1 = Except.error e) :
    (t, Outcome.failed e) ∈ (driverRun post webhook r max_num catalog).outcomes
    ∧ (driverRun post webhook r max_num catalog).outcomes.map Prod.fst
        = catalog.map Prod.fst :=
  ⟨driverRun_failed_mem post webhook r max_num catalog t l e hmem hlen he,
    driverRun_outcomes_keys post webhook r max_num catalog⟩

/-- C9 witness: the continuation theorem applied to a two-type catalog and
a webhook that always answers `errcode 93000, errmsg "invalid webhook"`:
the first type is recorded as failed. -/
theorem c9_witness :
    ¬ ([ (pystr ("n1"), pystr ("https://1"))
       , (pystr ("n2"), pystr ("https://2"))
       , (pystr ("n3"), pystr ("https://3"))
       , (pystr ("n4"), pystr ("https://4"))
       , (pystr ("n5"), pystr ("https://5")) ] : List (PyStr × PyStr)).length < 5
    ∧ (pystr ("A"),
        Outcome.failed (SendError.deliveryError (some (pystr ("invalid webhook"))) (some 93000)))
        ∈ (driverRun
            (fun _ _ => PostResult.respond
              { errcode := some 93000, errmsg := some (pystr ("invalid webhook")) })
            (pystr ("http://w")) (fun _ => 0) 5
            [ (pystr ("A"), [ (pystr ("n1"), pystr ("https://1"))
                            , (pystr ("n2"), pystr ("https://2"))
                            , (pystr ("n3"), pystr ("https://3"))
                            , (pystr ("n4"), pystr ("https://4"))
                            , (pystr ("n5"), pystr ("https://5")) ])
            , (pystr ("B"), [ (pystr ("m1"), pystr ("https://1"))
                            , (pystr ("m2"), pystr ("https://2"))
                            , (pystr ("m3"), pystr ("https://3"))
                            , (pystr ("m4"), pystr ("https://4"))
                            , (pystr ("m5"), pystr ("https://5")) ]) ]).outcomes :=
  ⟨by decide,
    (c9_driver_continues_after_failure
      (fun _ _ => PostResult.respond
        { errcode := some 93000, errmsg := some (pystr ("invalid webhook")) })
      (pystr ("http://w")) (fun _ => 0) 5
      [ (pystr ("A"), [ (pystr ("n1"), pystr ("https://1"))
                      , (pystr ("n2"), pystr ("https://2"))
                      , (pystr ("n3"), pystr ("https://3"))
                      , (pystr ("n4"), pystr ("https://4"))
                      , (pystr ("n5"), pystr ("https://5")) ])
      , (pystr ("B"), [ (pystr ("m1"), pystr ("https://1"))
                      , (pystr ("m2"), pystr ("https://2"))
                      , (pystr ("m3"), pystr ("https://3"))
                      , (pystr ("m4"), pystr ("https://4"))
                      , (pystr ("m5"), pystr ("https://5")) ]) ]
      (pystr ("A"))
      [ (pystr ("n1"), pystr ("https://1"))
      , (pystr ("n2"), pystr ("https://2"))
      , (pystr ("n3"), pystr ("https://3"))
      , (pystr ("n4"), pystr ("https://4"))
      , (pystr ("n5"), pystr ("https://5")) ]
      (SendError.deliveryError (some (pystr ("invalid webhook"))) (some 93000))
      (by decide) (by decide) rfl).1⟩

/-! ## Theorems for claim C8 (schema validation) -/

/-- C8: when any required column (after stripping) is missing from the
stripped header row, the loader raises the schema error carrying exactly
the missing required columns and the header columns actually found, and
the `__main__` block exits with code 1 having invoked the notifier zero
times. -/
theorem c8_schema_error_aborts (table : Table) (colType colName colLink : PyStr)
    (post : PyStr → Payload → PostResult) (r : Nat → Nat) (webhook : Option PyStr)
    (max_num : Nat) (h : missingCols table colType colName colLink ≠ []) :
    read_excel_and_classify (some table) colType colName colLink
      = Except.error (LoadError.schemaError (missingCols table colType colName colLink)
          (table.headers.map pyStrip))
    ∧ (∀ c, c ∈ missingCols table colType colName colLink ↔
        (c ∈ requiredCols colType colName colLink
          ∧ ¬ (table.headers.map pyStrip).contains c = true))
    ∧ mainRun post r webhook (some table) colType colName colLink max_num
      = (1, { outcomes := [], calls := [] }) := by
  have h1 : read_excel_and_classify (some table) colType colName colLink
      = Except.error (LoadError.schemaError (missingCols table colType colName colLink)
          (table.headers.map pyStrip)) := by
    simp only [read_excel_and_classify]
    rw [if_pos h]
  refine ⟨h1, ?_, ?_⟩
  · intro c
    simp [missingCols, List.mem_filter]
  · cases webhook with
    | none => rfl
    | some w =>
      by_cases hw : w = []
      · simp [mainRun, hw]
      · simp [mainRun, hw, h1]

/-- C8 witness: the schema-error theorem applied to a table whose header
has only the type and name columns, with the default column names: the
link column is reported missing and the run exits 1 with no calls. -/
theorem c8_witness :
    missingCols { headers := [pystr ("资源类型"), pystr ("资源名称")], rows := [] }
        (pystr ("资源类型")) (pystr ("资源名称")) (pystr ("资源链接")) ≠ []
    ∧ mainRun (fun _ _ => PostResult.raised []) (fun _ => 0) (some (pystr ("http://w")))
        (some { headers := [pystr ("资源类型"), pystr ("资源名称")], rows := [] })
        (pystr ("资源类型")) (pystr ("资源名称")) (pystr ("资源链接")) 5
      = (1, { outcomes := [], calls := [] }) :=
  ⟨by decide,
    (c8_schema_error_aborts { headers := [pystr ("资源类型"), pystr ("资源名称")], rows := [] }
      (pystr ("资源类型")) (pystr ("资源名称")) (pystr ("资源链接"))
      (fun _ _ => PostResult.raised []) (fun _ => 0) (some (pystr ("http://w"))) 5
      (by decide)).2.2⟩

/-! ## Theorems for claim C2 (the undefined `RANDOM_SEED`) -/

theorem intGetenv_ok_of_parses (v : Option PyStr) (d : Int)
    (h : v.all (fun s => (parsePyInt s).isSome) = true) :
    ∃ n, intGetenv v d = Except.ok n := by
  cases v with
  | none => exact ⟨d, rfl⟩
  | some s =>
    simp only [Option.all] at h
    cases hp : parsePyInt s with
    | none =>
      rw [hp] at h
      simp at h
    | some n =>
      exact ⟨n, by simp [intGetenv, hp]⟩

theorem moduleInit_fails (env : Env) : ∃ e, moduleInit env = Except.error e := by
  cases h1 : intGetenv env.sendLinksPerType 5 with
  | error e =>
    exact ⟨e, by simp [moduleInit, moduleGlobals, h1]⟩
  | ok a =>
    cases h2 : intGetenv env.sendInterval 2 with
    | error e =>
      exact ⟨e, by simp [moduleInit, moduleGlobals, h1, h2]⟩
    | ok b =>
      refine ⟨PyError.nameError (pystr ("RANDOM_SEED")), ?_⟩
      simp only [moduleInit, moduleGlobals, h1, h2]
      rfl

theorem moduleInit_nameError_of_parses (env : Env)
    (h1 : env.sendLinksPerType.all (fun s => (parsePyInt s).isSome) = true)
    (h2 : env.sendInterval.all (fun s => (parsePyInt s).isSome) = true) :
    moduleInit env = Except.error (PyError.nameError (pystr ("RANDOM_SEED"))) := by
  obtain ⟨a, ha⟩ := intGetenv_ok_of_parses env.sendLinksPerType 5 h1
  obtain ⟨b, hb⟩ := intGetenv_ok_of_parses env.sendInterval 2 h2
  simp only [moduleInit, moduleGlobals, ha, hb]
  rfl

theorem runProgram_no_effects (env : Env) (post : PyStr → Payload → PostResult)
    (r : Nat → Nat) (file : Option Table) :
    runProgram env post r file = (1, { outcomes := [], calls := [] }) := by
  obtain ⟨e, he⟩ := moduleInit_fails env
  simp [runProgram, he]

/-- C2 counterexample: with `SEND_LINKS_PER_TYPE=abc`, line 16's `int()`
raises `ValueError` before line 21 is ever reached, so this execution
terminates during module initialization with a `ValueError`, not a
`NameError` — refuting "every execution raises a NameError". -/
theorem c2_counterexample_valueerror_not_nameerror :
    moduleInit envAbc = Except.error (PyError.valueError (pystr ("abc")))
    ∧ moduleInit envAbc ≠ Except.error (PyError.nameError (pystr ("RANDOM_SEED"))) := by
  have hv : moduleInit envAbc = Except.error (PyError.valueError (pystr ("abc"))) := rfl
  refine ⟨hv, fun hcon => ?_⟩
  injection hv.symm.trans hcon with h2
  exact PyError.noConfusion h2

/-- C2 (amended): module initialization always raises — the `NameError` on
`RANDOM_SEED` at line 21 whenever the two integer settings parse, a
`ValueError` from `int()` otherwise — so for every environment, input file
and network, the process terminates with exit code 1 before reading any
catalog or sending any message. -/
theorem c2_program_crashes_at_init (env : Env) (post : PyStr → Payload → PostResult)
    (r : Nat → Nat) (file : Option Table) :
    runProgram env post r file = (1, { outcomes := [], calls := [] })
    ∧ (∃ e, moduleInit env = Except.error e)
    ∧ (env.sendLinksPerType.all (fun s => (parsePyInt s).isSome) = true →
       env.sendInterval.all (fun s => (parsePyInt s).isSome) = true →
       moduleInit env = Except.error (PyError.nameError (pystr ("RANDOM_SEED")))) :=
  ⟨runProgram_no_effects env post r file, moduleInit_fails env,
    fun h1 h2 => moduleInit_nameError_of_parses env h1 h2⟩

/-- C2 witness: the crash theorem applied to the empty environment, where
both integer settings take their defaults and the `NameError` on
`RANDOM_SEED` is raised. -/
theorem c2_witness :
    (Option.all (fun s => (parsePyInt s).isSome) (none : Option PyStr) = true)
    ∧ moduleInit envEmpty = Except.error (PyError.nameError (pystr ("RANDOM_SEED"))) :=
  ⟨rfl,
    (c2_program_crashes_at_init envEmpty (fun _ _ => PostResult.raised []) (fun _ => 0)
      none).2.2 rfl rfl⟩

end PushResource
